import Mathlib

/-!
Shallow embedding of the core quote pipeline of the window-advisor-dashboard
repository (quote text parsing, attribute mapping, option extraction, and
comparison assembly), together with theorems settling the frozen claims.

JS numbers are modelled as rationals, JS strings as Lean strings (lists of
characters).  The JS regular expressions used by the sources are embedded via
a small backtracking matcher with the same leftmost-match, greedy-with-
backtracking semantics that the JS engine applies to these patterns.
-/

namespace WindowAdvisor

/-- The JS character class `\d`. -/
def isDigitChar (c : Char) : Bool := '0' ≤ c && c ≤ '9'

/-- The JS character class `\s` (the whitespace characters that can occur in
the extracted text handled by the sources). -/
def isSpaceChar (c : Char) : Bool :=
  c == ' ' || c == '\t' || c == '\n' || c == '\r' || c == Char.ofNat 11 || c == Char.ofNat 12

/-- The JS character class `\w`. -/
def isWordChar (c : Char) : Bool :=
  ('a' ≤ c && c ≤ 'z') || ('A' ≤ c && c ≤ 'Z') || isDigitChar c || c == '_'

/-- Embedded regular expressions: exactly the constructs used by the patterns
in the sources.  `lit` literals match case-insensitively (every literal with
letters in the sources sits in a `/i` or `/gi` pattern); quantifiers range
over character classes, matching the source patterns. -/
inductive RE where
  | eps : RE
  | lit : List Char → RE
  | cls : (Char → Bool) → RE
  | many : (Char → Bool) → RE
  | many1 : (Char → Bool) → RE
  | seq : RE → RE → RE
  | alt : RE → RE → RE
  | opt : RE → RE
  | grp : RE → RE

/-- Case-insensitive literal match returning the remaining input. -/
def litMatch : List Char → List Char → Option (List Char)
  | [], s => some s
  | _ :: _, [] => none
  | p :: ps, c :: cs => if p.toLower == c.toLower then litMatch ps cs else none

/-- Greedy Kleene star over a character class, with backtracking into the
continuation: longest run first, then successively shorter runs. -/
def manyK (f : Char → Bool) (k : List Char → Option β) : List Char → Option β
  | [] => k []
  | c :: cs =>
    if f c then
      match manyK f k cs with
      | some r => some r
      | none => k (c :: cs)
    else k (c :: cs)

/-- Backtracking matcher in continuation-passing style.  `caps` accumulates
capture groups in the order their groups close (the patterns in the sources
never nest groups, so this is left-to-right group order). -/
def mrun : RE → List Char → List (List Char) → (List Char → List (List Char) → Option β) → Option β
  | .eps, s, caps, k => k s caps
  | .lit p, s, caps, k =>
    match litMatch p s with
    | some rest => k rest caps
    | none => none
  | .cls f, s, caps, k =>
    match s with
    | c :: cs => if f c then k cs caps else none
    | [] => none
  | .many f, s, caps, k => manyK f (fun rest => k rest caps) s
  | .many1 f, s, caps, k =>
    match s with
    | c :: cs => if f c then manyK f (fun rest => k rest caps) cs else none
    | [] => none
  | .seq a b, s, caps, k => mrun a s caps (fun rest caps2 => mrun b rest caps2 k)
  | .alt a b, s, caps, k =>
    match mrun a s caps k with
    | some r => some r
    | none => mrun b s caps k
  | .opt r, s, caps, k =>
    match mrun r s caps k with
    | some res => some res
    | none => k s caps
  | .grp r, s, caps, k =>
    mrun r s caps (fun rest caps2 => k rest (caps2 ++ [s.take (s.length - rest.length)]))

/-- One regex match: start index, end index (exclusive), captured groups. -/
structure MatchRes where
  index : Nat
  stop : Nat
  caps : List (List Char)
deriving DecidableEq

/-- Try to match `r` at the start of `s`; on success return the length of the
match and the captures. -/
def matchAt (r : RE) (s : List Char) : Option (Nat × List (List Char)) :=
  mrun r s [] (fun rest caps => some (s.length - rest.length, caps))

/-- Leftmost match: try every start position in order, as `String.match` and
`RegExp.exec` do. -/
def searchAux (r : RE) : List Char → Nat → Option MatchRes
  | s, i =>
    match matchAt r s with
    | some (len, caps) => some ⟨i, i + len, caps⟩
    | none =>
      match s with
      | [] => none
      | _ :: cs => searchAux r cs (i + 1)

/-- JS `text.match(re)` (without the global flag): first match. -/
def jsSearch (r : RE) (s : List Char) : Option MatchRes := searchAux r s 0

/-- JS `text.matchAll(re)` with the global flag: repeated leftmost search,
resuming at the end of the previous match (advancing one position past an
empty match, as JS does). -/
def matchAllAux (r : RE) (s : List Char) : Nat → Nat → List MatchRes
  | 0, _ => []
  | fuel + 1, pos =>
    match jsSearch r (s.drop pos) with
    | some m =>
      ⟨pos + m.index, pos + m.stop, m.caps⟩ ::
        matchAllAux r s fuel (if m.stop = m.index then pos + m.stop + 1 else pos + m.stop)
    | none => []

/-- All matches of a global regex, in order. -/
def jsMatchAll (r : RE) (s : List Char) : List MatchRes := matchAllAux r s (s.length + 1) 0

/-- JS `s.replace(re, empty)`: remove the first match (all replacements in the
sources replace with the empty string). -/
def jsReplace (r : RE) (s : List Char) : List Char :=
  match jsSearch r s with
  | some m => s.take m.index ++ s.drop m.stop
  | none => s

/-- JS `String.prototype.trim`. -/
def jsTrim (s : List Char) : List Char :=
  ((s.dropWhile isSpaceChar).reverse.dropWhile isSpaceChar).reverse

/-- Does `hay` start with `needle`? (case-sensitive, used by `includes`). -/
def listStartsWith : List Char → List Char → Bool
  | _, [] => true
  | [], _ :: _ => false
  | c :: cs, p :: ps => c == p && listStartsWith cs ps

/-- JS `String.prototype.includes` (case-sensitive substring test). -/
def jsIncludes : List Char → List Char → Bool
  | [], needle => listStartsWith [] needle
  | c :: cs, needle => listStartsWith (c :: cs) needle || jsIncludes cs needle

/-- First capture group of a match (all source regexes that read a group have
group 1 participating in every match). -/
def cap1 (m : MatchRes) : List Char := m.caps.getD 0 []

/-- Digits to a natural number, as JS `parseInt(s, 10)` on an all-digit token. -/
def digitsToNat (s : List Char) : Nat :=
  s.foldl (fun n c => n * 10 + (c.toNat - '0'.toNat)) 0

/-- JS comma removal `s.replace(/,/g, empty)` applied before `parseFloat`. -/
def stripCommas (s : List Char) : List Char := s.filter (fun c => c != ',')

/-- Split a token at the first dot, for decimal parsing. -/
def splitAtDot : List Char → (List Char × List Char)
  | [] => ([], [])
  | c :: cs =>
    if c == '.' then ([], cs)
    else
      let r := splitAtDot cs
      (c :: r.1, r.2)

/-- JS `parseFloat` on the tokens produced by the source regexes
(`digits` or `digits.digits`), as an exact rational. -/
def parsePosDecimal (s : List Char) : ℚ :=
  let p := splitAtDot s
  (digitsToNat p.1 : ℚ) + (digitsToNat p.2 : ℚ) / ((10 : ℚ) ^ p.2.length)

/-- JS `text.lastIndexOf(nl, i)`: position of the last newline at index at
most `i`, if any. -/
def jsLastIndexOfNl (s : List Char) (i : Nat) : Option Nat :=
  ((List.range (i + 1)).filter (fun j => s.getD j ' ' == '\n')).getLast?

/-- JS `text.indexOf(nl, i)`: position of the first newline at index at least
`i`, if any. -/
def jsIndexOfNlFrom (s : List Char) (i : Nat) : Option Nat :=
  (((List.range s.length).drop i).filter (fun j => s.getD j ' ' == '\n')).head?

/-- The enclosing line of position `i`, as computed by the parser:
`text.substring(Math.max(0, text.lastIndexOf(nl, i)), indexOf(nl, i) or end)`.
When a newline precedes the position, the line includes that newline
character, exactly as in the source. -/
def lineOf (s : List Char) (i : Nat) : List Char :=
  let lineStart := (jsLastIndexOfNl s i).getD 0
  match jsIndexOfNlFrom s i with
  | some lineEnd => (s.take lineEnd).drop lineStart
  | none => s.drop lineStart

/-- Decimal digit characters of a natural number. -/
def natDigits (n : Nat) : List Char := Nat.toDigits 10 n

/-- Modelled from the host JS number-to-string conversion (not part of the
repository sources, used by the template literal that synthesizes a default
item description): prints the exact finite decimal expansion of the
rationals produced by `parseFloat` on the parser tokens (which always have a
denominator dividing a power of ten; the final case is unreachable for
those values). -/
def jsNumberToString (q : ℚ) : String :=
  let sign := if q.num < 0 then "-" else ""
  let a := q.num.natAbs
  match (List.range 33).find? (fun k => decide (q.den ∣ 10 ^ k)) with
  | some 0 => sign ++ String.mk (natDigits a)
  | some k =>
    let scaled := a * 10 ^ k / q.den
    let ds := natDigits scaled
    let ds := if ds.length ≤ k then List.replicate (k + 1 - ds.length) '0' ++ ds else ds
    sign ++ String.mk (ds.take (ds.length - k)) ++ "." ++ String.mk (ds.drop (ds.length - k))
  | none => sign ++ String.mk (natDigits a) ++ "/" ++ String.mk (natDigits q.den)

/-- The separator class `[\/\-\.]` of the date regexes. -/
def isDateSep (c : Char) : Bool := c == '/' || c == '-' || c == '.'

/-- Split a date token at its separator characters. -/
def splitFieldsAux : List Char → List Char → List (List Char)
  | [], acc => [acc.reverse]
  | c :: cs, acc =>
    if isDateSep c then acc.reverse :: splitFieldsAux cs []
    else splitFieldsAux cs (c :: acc)

/-- A calendar date as stored after parsing. -/
structure JsDate where
  month : Nat
  day : Nat
  year : Nat
deriving DecidableEq

/-- Gregorian leap-year rule. -/
def isLeapYear (y : Nat) : Bool := (y % 4 == 0 && y % 100 != 0) || y % 400 == 0

/-- Days in a month of a given year. -/
def daysInMonth (m y : Nat) : Nat :=
  if m == 2 then (if isLeapYear y then 29 else 28)
  else if m == 4 || m == 6 || m == 9 || m == 11 then 30
  else 31

/-- Modelled from the host JS `new Date(string)` constructor (not part of the
repository sources) on the month/day/year tokens produced by the date regex:
an in-range month/day/year triple yields that calendar date, two-digit years
are widened the way the host does, and an out-of-range field yields an
invalid date, which the parser then stores as a missing date. -/
def jsNewDate (tok : List Char) : Option JsDate :=
  match splitFieldsAux tok [] with
  | [ms, ds, ys] =>
    let m := digitsToNat ms
    let d := digitsToNat ds
    let y0 := digitsToNat ys
    let y := if y0 < 50 then 2000 + y0 else if y0 < 100 then 1900 + y0 else y0
    if 1 ≤ m ∧ m ≤ 12 ∧ 1 ≤ d ∧ d ≤ daysInMonth m y then some ⟨m, d, y⟩ else none
  | _ => none

/-- The `\s*` fragment. -/
def spc : RE := .many isSpaceChar

/-- The quote-number capture `(\w+[-]?\d+)`. -/
def quoteTokenRe : RE :=
  .grp (.seq (.many1 isWordChar) (.seq (.opt (.cls (fun c => c == '-'))) (.many1 isDigitChar)))

/-- The source regex `Quote\s*#?\s*(\w+[-]?\d+)` (case-insensitive). -/
def quoteNumberRe1 : RE :=
  .seq (.lit "quote".toList)
    (.seq spc (.seq (.opt (.cls (fun c => c == '#'))) (.seq spc quoteTokenRe)))

/-- The source regex `Quote\s*Number\s*:?\s*(\w+[-]?\d+)` (case-insensitive). -/
def quoteNumberRe2 : RE :=
  .seq (.lit "quote".toList)
    (.seq spc (.seq (.lit "number".toList)
      (.seq spc (.seq (.opt (.cls (fun c => c == ':'))) (.seq spc quoteTokenRe)))))

/-- The source regex `Estimate\s*#?\s*(\w+[-]?\d+)` (case-insensitive). -/
def quoteNumberRe3 : RE :=
  .seq (.lit "estimate".toList)
    (.seq spc (.seq (.opt (.cls (fun c => c == '#'))) (.seq spc quoteTokenRe)))

/-- One-or-two digits, `\d{1,2}` (greedy). -/
def d12Re : RE := .seq (.cls isDigitChar) (.opt (.cls isDigitChar))

/-- Two-to-four digits, `\d{2,4}` (greedy). -/
def y24Re : RE :=
  .seq (.cls isDigitChar)
    (.seq (.cls isDigitChar) (.seq (.opt (.cls isDigitChar)) (.opt (.cls isDigitChar))))

/-- The date capture `(\d{1,2}[\/\-\.]\d{1,2}[\/\-\.]\d{2,4})`. -/
def dateTokenRe : RE :=
  .grp (.seq d12Re (.seq (.cls isDateSep) (.seq d12Re (.seq (.cls isDateSep) y24Re))))

/-- The source regex `Date\s*:?\s*(date token)` (case-insensitive). -/
def dateRe1 : RE :=
  .seq (.lit "date".toList)
    (.seq spc (.seq (.opt (.cls (fun c => c == ':'))) (.seq spc dateTokenRe)))

/-- The source bare-date regex: the date token anywhere. -/
def dateRe2 : RE := dateTokenRe

/-- The money capture `([\d,]+\.\d{2})`. -/
def moneyRe : RE :=
  .grp (.seq (.many1 (fun c => isDigitChar c || c == ','))
    (.seq (.cls (fun c => c == '.')) (.seq (.cls isDigitChar) (.cls isDigitChar))))

/-- The shared tail `\s*:?\s*\$?\s*(money)` of the three total regexes. -/
def totalTailRe : RE :=
  .seq spc (.seq (.opt (.cls (fun c => c == ':')))
    (.seq spc (.seq (.opt (.cls (fun c => c == '$'))) (.seq spc moneyRe))))

/-- The source regex `Total\s*:?\s*\$?\s*(money)` (case-insensitive). -/
def totalRe1 : RE := .seq (.lit "total".toList) totalTailRe

/-- The source regex `Grand\s*Total\s*:?\s*\$?\s*(money)` (case-insensitive). -/
def totalRe2 : RE :=
  .seq (.lit "grand".toList) (.seq spc (.seq (.lit "total".toList) totalTailRe))

/-- The source regex `Amount\s*Due\s*:?\s*\$?\s*(money)` (case-insensitive). -/
def totalRe3 : RE :=
  .seq (.lit "amount".toList) (.seq spc (.seq (.lit "due".toList) totalTailRe))

/-- The dimension-number capture `(\d+(?:\.\d+)?)`. -/
def numTokenRe : RE :=
  .grp (.seq (.many1 isDigitChar) (.opt (.seq (.cls (fun c => c == '.')) (.many1 isDigitChar))))

/-- The dimension regex `(\d+(?:\.\d+)?)\s*(?:x|×)\s*(\d+(?:\.\d+)?)` with the
`gi` flags: the `x` matches case-insensitively. -/
def dimensionRe : RE :=
  .seq numTokenRe
    (.seq spc (.seq (.alt (.lit "x".toList) (.lit "×".toList)) (.seq spc numTokenRe)))

/-- The uncaptured dimension number `\d+(?:\.\d+)?`. -/
def numPlainRe : RE :=
  .seq (.many1 isDigitChar) (.opt (.seq (.cls (fun c => c == '.')) (.many1 isDigitChar)))

/-- The dimension-removal regex `\d+(?:\.\d+)?\s*(?:x|×)\s*\d+(?:\.\d+)?` used
on the description: it has no `i` flag, so the `x` is case-sensitive. -/
def dimensionReplaceRe : RE :=
  .seq numPlainRe
    (.seq spc (.seq (.alt (.cls (fun c => c == 'x')) (.cls (fun c => c == '×')))
      (.seq spc numPlainRe)))

/-- The line price regex `\$\s*([\d,]+\.\d{2})` (also used, without its group,
to remove the price from the description). -/
def priceRe : RE := .seq (.cls (fun c => c == '$')) (.seq spc moneyRe)

/-- The source regex `qty\s*:?\s*(\d+)` (case-insensitive). -/
def qtyRe : RE :=
  .seq (.lit "qty".toList)
    (.seq spc (.seq (.opt (.cls (fun c => c == ':'))) (.seq spc (.grp (.many1 isDigitChar)))))

/-- The source regex `quantity\s*:?\s*(\d+)` (case-insensitive). -/
def quantityRe : RE :=
  .seq (.lit "quantity".toList)
    (.seq spc (.seq (.opt (.cls (fun c => c == ':'))) (.seq spc (.grp (.many1 isDigitChar)))))

/-- First regex of a list to match, mirroring the chained `||` of `match`
calls in the source. -/
def firstMatch : List RE → List Char → Option MatchRes
  | [], _ => none
  | r :: rest, t =>
    match jsSearch r t with
    | some m => some m
    | none => firstMatch rest t

/-- Quote-number extraction: the three labelled regexes in priority order,
first match wins, capture group 1. -/
def scanQuoteNumber (t : List Char) : Option (List Char) :=
  (firstMatch [quoteNumberRe1, quoteNumberRe2, quoteNumberRe3] t).map cap1

/-- Date-token extraction: labelled date first, then any bare date token. -/
def scanDate (t : List Char) : Option (List Char) :=
  (firstMatch [dateRe1, dateRe2] t).map cap1

/-- Total-amount extraction: the three labelled regexes in priority order,
comma-stripped and parsed as a decimal. -/
def scanTotal (t : List Char) : Option ℚ :=
  (firstMatch [totalRe1, totalRe2, totalRe3] t).map
    (fun m => parsePosDecimal (stripCommas (cap1 m)))

/-- A parsed line item as pushed by `parseQuoteText`. -/
structure RawItem where
  widthInches : ℚ
  heightInches : ℚ
  description : String
  quantity : ℚ
  unitPrice : ℚ
  totalPrice : ℚ
  confidenceScore : ℚ
deriving DecidableEq

/-- The result shape of `parseQuoteText`. -/
structure ParsedQuote where
  quoteNumber : String
  quoteDate : Option JsDate
  totalAmount : ℚ
  items : List RawItem
deriving DecidableEq

/-- The synthesized description used when the residual description is empty. -/
def synthDescription (width height : ℚ) : String :=
  jsNumberToString width ++ "\" × " ++ jsNumberToString height ++ "\" Window"

/-- Per-dimension-match item construction inside `parseQuoteText`: find the
enclosing line, the price and explicit quantity in it, strip price, quantity
and dimension tokens from the description, and keep the item only when both
dimensions are strictly positive. -/
def buildItem (t : List Char) (m : MatchRes) : Option RawItem :=
  let width := parsePosDecimal (m.caps.getD 0 [])
  let height := parsePosDecimal (m.caps.getD 1 [])
  let line := lineOf t m.index
  let price : ℚ :=
    match jsSearch priceRe line with
    | some pm => parsePosDecimal (stripCommas (cap1 pm))
    | none => 0
  let quantity : ℚ :=
    match firstMatch [qtyRe, quantityRe] line with
    | some qm => (digitsToNat (cap1 qm) : ℚ)
    | none => 1
  let d1 := jsTrim (jsReplace priceRe line)
  let d2 := jsTrim (jsReplace qtyRe d1)
  let d3 := jsTrim (jsReplace quantityRe d2)
  let d4 := jsTrim (jsReplace dimensionReplaceRe d3)
  let description := if d4 = [] then synthDescription width height else String.mk d4
  if width > 0 ∧ height > 0 then
    some { widthInches := width, heightInches := height, description := description,
           quantity := quantity, unitPrice := price / quantity, totalPrice := price,
           confidenceScore := 0.8 }
  else none

/-- The parser `parseQuoteText(text, competitorName)` of the quote manager:
quote number, date and total by labelled regexes with defaults, and one item
per dimension match.  The competitor name is accepted and unused, as in the
source. -/
def parseQuoteText (text : String) (_competitorName : String) : ParsedQuote :=
  let t := text.toList
  let quoteNumber :=
    match scanQuoteNumber t with
    | some tok => String.mk tok
    | none => ""
  let quoteDate :=
    match scanDate t with
    | some tok => jsNewDate tok
    | none => none
  let totalAmount :=
    match scanTotal t with
    | some amt => amt
    | none => 0
  let items := (jsMatchAll dimensionRe t).filterMap (buildItem t)
  { quoteNumber := quoteNumber, quoteDate := quoteDate,
    totalAmount := totalAmount, items := items }

/-- JS `toLowerCase` on the character list of a string. -/
def jsToLower (s : String) : List Char := s.toList.map Char.toLower

/-- Window-type classifier of the comparison manager: case-insensitive
substring checks against the product name, in source order, defaulting to
double-hung. -/
def mapWindowType (productName : String) : String :=
  let name := jsToLower productName
  if jsIncludes name "double-hung".toList || jsIncludes name "double hung".toList then
    "double-hung"
  else if jsIncludes name "casement".toList then "casement"
  else if jsIncludes name "awning".toList then "awning"
  else if jsIncludes name "slider".toList || jsIncludes name "sliding".toList then "slider"
  else if jsIncludes name "picture".toList || jsIncludes name "fixed".toList then "picture"
  else if jsIncludes name "bay".toList then "bay"
  else if jsIncludes name "bow".toList then "bow"
  else if jsIncludes name "garden".toList then "garden"
  else "double-hung"

/-- Material classifier of the comparison manager, defaulting to vinyl. -/
def mapMaterial (materialType : String) : String :=
  let material := jsToLower materialType
  if jsIncludes material "vinyl".toList then "vinyl"
  else if jsIncludes material "fiberglass".toList then "fiberglass"
  else if jsIncludes material "wood".toList then "wood"
  else if jsIncludes material "aluminum".toList then "aluminum"
  else if jsIncludes material "composite".toList then "composite"
  else "vinyl"

/-- Glass-type classifier of the comparison manager, defaulting to
double-pane. -/
def mapGlassType (description : String) : String :=
  let desc := jsToLower description
  if jsIncludes desc "triple".toList || jsIncludes desc "3-pane".toList ||
      jsIncludes desc "3 pane".toList then "triple-pane"
  else if jsIncludes desc "single".toList || jsIncludes desc "1-pane".toList ||
      jsIncludes desc "1 pane".toList then "single-pane"
  else "double-pane"

/-- Case-insensitive regex test, JS `re.test(s)`. -/
def reTest (r : RE) (s : String) : Bool := (jsSearch r s.toList).isSome

/-- The option-detection regex `low-e|low e|lowe` (case-insensitive). -/
def lowERe : RE := .alt (.lit "low-e".toList) (.alt (.lit "low e".toList) (.lit "lowe".toList))

/-- The option-detection regex `argon|gas filled`. -/
def argonRe : RE := .alt (.lit "argon".toList) (.lit "gas filled".toList)

/-- The option-detection regex `energy star|energystar`. -/
def energyStarRe : RE := .alt (.lit "energy star".toList) (.lit "energystar".toList)

/-- The option-detection regex `tempered|safety glass`. -/
def temperedRe : RE := .alt (.lit "tempered".toList) (.lit "safety glass".toList)

/-- The option-detection regex `grids|grilles|muntins`. -/
def gridsRe : RE := .alt (.lit "grids".toList) (.alt (.lit "grilles".toList) (.lit "muntins".toList))

/-- The option-detection regex `screens`. -/
def screensRe : RE := .lit "screens".toList

/-- The option-detection regex `tilt|washable`. -/
def tiltRe : RE := .alt (.lit "tilt".toList) (.lit "washable".toList)

/-- The option list built by `extractOptions` before it is joined for
storage: one fixed-order conditional append per feature check. -/
def extractOptionsList (description : String) : List String :=
  let options : List String := []
  let options := if reTest lowERe description then options ++ ["Low-E Glass"] else options
  let options := if reTest argonRe description then options ++ ["Argon Gas"] else options
  let options := if reTest energyStarRe description then options ++ ["ENERGY STAR"] else options
  let options := if reTest temperedRe description then options ++ ["Tempered Glass"] else options
  let options := if reTest gridsRe description then options ++ ["Grids"] else options
  let options := if reTest screensRe description then options ++ ["Screens"] else options
  let options := if reTest tiltRe description then options ++ ["Tilt Feature"] else options
  options

/-- The source `extractOptions`: the option list joined with a comma and a
space for storage. -/
def extractOptions (description : String) : String :=
  String.intercalate ", " (extractOptionsList description)

/-- JS `s.charAt(0).toUpperCase() + s.slice(1)`. -/
def jsCapitalize (s : String) : String :=
  match s.toList with
  | [] => ""
  | c :: cs => String.mk (c.toUpper :: cs)

/-- The display formatter for a canonical glass type, defaulting to double
pane for unrecognized values. -/
def formatGlassType (glassType : String) : String :=
  if glassType = "single-pane" then "Single Pane Glass"
  else if glassType = "double-pane" then "Double Pane Glass"
  else if glassType = "triple-pane" then "Triple Pane Glass"
  else "Double Pane Glass"

/-- The mapped-options record used by the pricing call. -/
structure WOptions where
  windowType : String
  material : String
  glassType : String
deriving DecidableEq

/-- The source `formatOptions`: capitalized material frame label and glass
display phrase, joined with a comma and a space; empty fields are falsy in
the source and skipped. -/
def formatOptions (options : WOptions) : String :=
  let formattedOptions : List String := []
  let formattedOptions :=
    if options.material = "" then formattedOptions
    else formattedOptions ++ [jsCapitalize options.material ++ " Frame"]
  let formattedOptions :=
    if options.glassType = "" then formattedOptions
    else formattedOptions ++ [formatGlassType options.glassType]
  String.intercalate ", " formattedOptions

/-- A stored quote item, as read by the comparison manager and the quote
manager update path (storage bookkeeping fields not touched by any verified
claim are elided). -/
structure QuoteItem where
  itemId : String
  quoteId : String
  widthInches : ℚ
  heightInches : ℚ
  description : String
  quantity : ℚ
  unitPrice : ℚ
  totalPrice : ℚ
  confidenceScore : ℚ
  createdAt : Nat
  updatedAt : Nat
deriving DecidableEq

/-- A catalog product from the products collection. -/
structure Product where
  productId : String
  productName : String
  description : String
  materialType : String
  basePrice : ℚ
deriving DecidableEq

/-- The result of the external product matcher: the matched product fields
together with a match confidence. -/
structure MatchedProduct where
  productId : String
  productName : String
  description : String
  materialType : String
  basePrice : ℚ
  confidence : ℚ
deriving DecidableEq

/-- A stored quote record (fields not touched by any verified claim are
elided). -/
structure Quote where
  quoteId : String
  projectId : String
  competitorName : String
  totalAmount : ℚ
  updatedAt : Nat
deriving DecidableEq

/-- The measurements argument of the external pricing call. -/
structure Measurements where
  width : ℚ
  height : ℚ
  quantity : ℚ
deriving DecidableEq

/-- The result of the external pricing call. -/
structure Calculation where
  totalPrice : ℚ
  pricePerWindow : ℚ
  basePrice : ℚ
  optionsPrice : ℚ
deriving DecidableEq

/-- The result of `calculateWarnkePrice`. -/
structure PriceCalculation where
  totalPrice : ℚ
  pricePerWindow : ℚ
  basePrice : ℚ
  optionsPrice : ℚ
  options : WOptions
deriving DecidableEq

/-- A comparison record. -/
structure Comparison where
  comparisonId : String
  projectId : String
  quoteId : String
  competitorName : String
  totalCompetitorPrice : ℚ
  totalWarnkePrice : ℚ
  savingsAmount : ℚ
  savingsPercentage : ℚ
  status : String
  createdAt : Nat
  updatedAt : Nat
deriving DecidableEq

/-- A comparison item record. -/
structure ComparisonItem where
  comparisonItemId : String
  comparisonId : String
  quoteItemId : String
  competitorProductDescription : String
  competitorOptions : String
  competitorPrice : ℚ
  warnkeProductId : String
  warnkeProductName : String
  warnkeProductDescription : String
  warnkeOptions : String
  warnkePrice : ℚ
  width : ℚ
  height : ℚ
  quantity : ℚ
  savingsAmount : ℚ
  savingsPercentage : ℚ
  matchConfidence : ℚ
  createdAt : Nat
  updatedAt : Nat
deriving DecidableEq

/-- The external collaborators and I/O effects of the comparison manager:
the product matcher, the pricing engine, and the document-store writes, each
of which may fail; failure triggers the error paths of the source.  A
successful store write persists the given document unchanged.  `now` is the
wall clock and `genId` a fresh-identifier supply. -/
structure Env where
  matchProduct : QuoteItem → List Product → Except String MatchedProduct
  calculatePrice : Measurements → WOptions → Except String Calculation
  createComparisonDoc : Comparison → Except String Unit
  createComparisonItemDoc : ComparisonItem → Except String Unit
  updateComparisonDoc : Comparison → Except String Unit
  now : Nat
  genId : Nat → String

/-- The source `calculateWarnkePrice`: map the window type from the matched
product name, the material from its material type and the glass type from
the quote-item description, then call the external pricing engine; if
anything in that block fails, fall back to the matched product base price
with zeroed options surcharge and fixed default options.  The fallback
cannot fail. -/
def calculateWarnkePrice (env : Env) (quoteItem : QuoteItem)
    (matchedProduct : MatchedProduct) : PriceCalculation :=
  let windowType := mapWindowType matchedProduct.productName
  let material := mapMaterial matchedProduct.materialType
  let glassType := mapGlassType quoteItem.description
  let measurements : Measurements :=
    ⟨quoteItem.widthInches, quoteItem.heightInches, quoteItem.quantity⟩
  let options : WOptions := ⟨windowType, material, glassType⟩
  match env.calculatePrice measurements options with
  | .ok calculation =>
    { totalPrice := calculation.totalPrice, pricePerWindow := calculation.pricePerWindow,
      basePrice := calculation.basePrice, optionsPrice := calculation.optionsPrice,
      options := options }
  | .error _ =>
    { totalPrice := quoteItem.quantity * matchedProduct.basePrice,
      pricePerWindow := matchedProduct.basePrice,
      basePrice := matchedProduct.basePrice,
      optionsPrice := 0,
      options := ⟨"double-hung", "vinyl", "double-pane"⟩ }

/-- The body of one iteration of the `generateComparisonItems` loop: match
the product, price it, build the comparison item, and persist it.  Any error
is propagated to the per-item catch of the loop. -/
def processQuoteItem (env : Env) (comparisonId : String) (products : List Product)
    (n : Nat) (quoteItem : QuoteItem) : Except String ComparisonItem :=
  match env.matchProduct quoteItem products with
  | .error e => .error e
  | .ok matchedProduct =>
  let priceCalculation := calculateWarnkePrice env quoteItem matchedProduct
  let comparisonItem : ComparisonItem :=
    { comparisonItemId := env.genId n
      comparisonId := comparisonId
      quoteItemId := quoteItem.itemId
      competitorProductDescription := quoteItem.description
      competitorOptions := extractOptions quoteItem.description
      competitorPrice := quoteItem.totalPrice
      warnkeProductId := matchedProduct.productId
      warnkeProductName := matchedProduct.productName
      warnkeProductDescription := matchedProduct.description
      warnkeOptions := formatOptions priceCalculation.options
      warnkePrice := priceCalculation.totalPrice
      width := quoteItem.widthInches
      height := quoteItem.heightInches
      quantity := quoteItem.quantity
      savingsAmount := quoteItem.totalPrice - priceCalculation.totalPrice
      savingsPercentage :=
        if quoteItem.totalPrice > 0 then
          (quoteItem.totalPrice - priceCalculation.totalPrice) / quoteItem.totalPrice * 100
        else 0
      matchConfidence := matchedProduct.confidence
      createdAt := env.now
      updatedAt := env.now }
  match env.createComparisonItemDoc comparisonItem with
  | .error e => .error e
  | .ok _ => .ok comparisonItem

/-- The `generateComparisonItems` loop with its per-item try/catch: a failed
item is logged and skipped, the loop continues with the next item.  `n`
indexes the fresh-identifier supply. -/
def generateComparisonItemsAux (env : Env) (comparisonId : String)
    (products : List Product) : List QuoteItem → Nat → List ComparisonItem
  | [], _ => []
  | quoteItem :: rest, n =>
    match processQuoteItem env comparisonId products n quoteItem with
    | .ok createdItem => createdItem :: generateComparisonItemsAux env comparisonId products rest (n + 1)
    | .error _ => generateComparisonItemsAux env comparisonId products rest (n + 1)

/-- The source `generateComparisonItems`. -/
def generateComparisonItems (env : Env) (comparisonId : String)
    (quoteItems : List QuoteItem) (products : List Product) : List ComparisonItem :=
  generateComparisonItemsAux env comparisonId products quoteItems 1

/-- The body of `generateComparison`, after the three initial reads (the
quote, its items and the catalog are passed in by the caller): create the
provisional comparison, generate the items, recompute the totals and update
the comparison. -/
def generateComparisonCore (env : Env) (quote : Quote) (quoteItems : List QuoteItem)
    (products : List Product) (projectId : String) :
    Except String (Comparison × List ComparisonItem) :=
  let comparisonData : Comparison :=
    { comparisonId := env.genId 0
      projectId := projectId
      quoteId := quote.quoteId
      competitorName := quote.competitorName
      totalCompetitorPrice := quote.totalAmount
      totalWarnkePrice := 0
      savingsAmount := 0
      savingsPercentage := 0
      status := "generated"
      createdAt := env.now
      updatedAt := env.now }
  match env.createComparisonDoc comparisonData with
  | .error e => .error e
  | .ok _ =>
  let comparisonItems := generateComparisonItemsAux env comparisonData.comparisonId products quoteItems 1
  let totalWarnkePrice := comparisonItems.foldl (fun total item => total + item.warnkePrice) 0
  let savingsAmount := quote.totalAmount - totalWarnkePrice
  let savingsPercentage :=
    if quote.totalAmount > 0 then savingsAmount / quote.totalAmount * 100 else 0
  let updatedComparison : Comparison :=
    { comparisonData with
      totalWarnkePrice := totalWarnkePrice
      savingsAmount := savingsAmount
      savingsPercentage := savingsPercentage
      updatedAt := env.now }
  match env.updateComparisonDoc updatedComparison with
  | .error e => .error e
  | .ok _ => .ok (updatedComparison, comparisonItems)

/-- The source `generateComparison` with its outer catch: any failure is
rethrown as the fixed user-facing error. -/
def generateComparison (env : Env) (quote : Quote) (quoteItems : List QuoteItem)
    (products : List Product) (projectId : String) :
    Except String (Comparison × List ComparisonItem) :=
  match generateComparisonCore env quote quoteItems products projectId with
  | .ok r => .ok r
  | .error _ => .error "Failed to generate comparison. Please try again."

/-- A field/value pair for the dynamic `[field]: value` update of
`updateQuoteItem`, with the JS-sensible value type for each updatable
field. -/
inductive UpdateField where
  | widthInches (v : ℚ)
  | heightInches (v : ℚ)
  | quantity (v : ℚ)
  | unitPrice (v : ℚ)
  | totalPrice (v : ℚ)
  | description (v : String)
deriving DecidableEq

/-- The dynamic field assignment `{...item, [field]: value}`. -/
def setField (item : QuoteItem) : UpdateField → QuoteItem
  | .widthInches v => { item with widthInches := v }
  | .heightInches v => { item with heightInches := v }
  | .quantity v => { item with quantity := v }
  | .unitPrice v => { item with unitPrice := v }
  | .totalPrice v => { item with totalPrice := v }
  | .description v => { item with description := v }

/-- Does the updated field trigger the total-price recomputation branch? -/
def isRecomputeField : UpdateField → Bool
  | .widthInches _ | .heightInches _ | .quantity _ | .unitPrice _ => true
  | _ => false

/-- The document store touched by the quote-item update path: the quotes
collection and the quote-items collection. -/
structure DbState where
  quotes : List Quote
  quoteItems : List QuoteItem
deriving DecidableEq

/-- Store lookup of a quote item by identifier. -/
def findQuoteItem (st : DbState) (itemId : String) : Option QuoteItem :=
  st.quoteItems.find? (fun it => it.itemId == itemId)

/-- Store update of a quote item document (replace by identifier). -/
def replaceQuoteItem (st : DbState) (updated : QuoteItem) : DbState :=
  { st with quoteItems := st.quoteItems.map (fun it => if it.itemId == updated.itemId then updated else it) }

/-- The source `updateQuoteTotalAmount`: re-read the items of the quote, sum
their total prices, and store the sum on the quote; a missing quote is left
alone, and errors are swallowed by the source. -/
def updateQuoteTotalAmount (st : DbState) (quoteId : String) (now : Nat) : DbState :=
  let items := st.quoteItems.filter (fun it => it.quoteId == quoteId)
  let totalAmount := items.foldl (fun total item => total + item.totalPrice) 0
  match st.quotes.find? (fun q => q.quoteId == quoteId) with
  | some quote =>
    { st with quotes := st.quotes.map (fun q =>
        if q.quoteId == quoteId then { quote with totalAmount := totalAmount, updatedAt := now } else q) }
  | none => st

/-- The source `updateQuoteItem`: look the item up, apply the field update,
recompute the dependent price field (total price from unit price and
quantity for dimension, quantity and unit-price updates; unit price from the
new total price and quantity for total-price updates), store the item, then
re-derive the owning quote total.  A missing item is an error. -/
def updateQuoteItem (st : DbState) (itemId : String) (upd : UpdateField) (now : Nat) :
    Except String (DbState × QuoteItem) :=
  match findQuoteItem st itemId with
  | none => .error "Failed to update quote item. Please try again."
  | some item =>
    let updatedItem := setField { item with updatedAt := now } upd
    let updatedItem :=
      match upd with
      | .widthInches _ | .heightInches _ | .quantity _ | .unitPrice _ =>
        { updatedItem with totalPrice := updatedItem.unitPrice * updatedItem.quantity }
      | .totalPrice v => { updatedItem with unitPrice := v / updatedItem.quantity }
      | .description _ => updatedItem
    let st1 := replaceQuoteItem st updatedItem
    let st2 := updateQuoteTotalAmount st1 item.quoteId now
    .ok (st2, updatedItem)

/-! ### Helper lemmas -/

/-- Folding an addition over a list equals the initial value plus the sum of
the mapped values. -/
theorem foldl_add_map_sum {α : Type} (f : α → ℚ) (l : List α) (init : ℚ) :
    l.foldl (fun total x => total + f x) init = init + (l.map f).sum := by
  induction l generalizing init with
  | nil => simp
  | cons x xs ih => simp [ih, add_assoc]

/-- One conditional-append step preserves being a sublist of the check-order
list extended by the corresponding label. -/
theorem sublist_if_step {acc done : List String} (p : Prop) [Decidable p] (x : String)
    (h : acc.Sublist done) : (if p then acc ++ [x] else acc).Sublist (done ++ [x]) := by
  by_cases hp : p
  · simpa [hp] using h.append (List.Sublist.refl [x])
  · simpa [hp] using h.trans (List.sublist_append_left done [x])

/-- Replacing the quote documents of a given identifier with an updated
document of the same identifier makes the first lookup return the update
exactly when a document with that identifier was stored before. -/
theorem find_replace_quotes (l : List Quote) (quoteId : String) (u : Quote)
    (hu : (u.quoteId == quoteId) = true) :
    (l.map fun q => if q.quoteId == quoteId then u else q).find?
        (fun q => q.quoteId == quoteId) =
      if (l.find? (fun q => q.quoteId == quoteId)).isSome then some u else none := by
  induction l with
  | nil => rfl
  | cons x xs ih =>
    by_cases hx : (x.quoteId == quoteId) = true
    · rw [List.map_cons, if_pos hx,
        @List.find?_cons_of_pos Quote (fun q => q.quoteId == quoteId) u _ hu,
        @List.find?_cons_of_pos Quote (fun q => q.quoteId == quoteId) x xs hx]
      simp
    · rw [List.map_cons, if_neg hx,
        @List.find?_cons_of_neg Quote (fun q => q.quoteId == quoteId) x _ hx,
        @List.find?_cons_of_neg Quote (fun q => q.quoteId == quoteId) x xs hx]
      rw [ih]

/-! ### Claims about the attribute mappers and the option extractor -/

/-- Every substring keyword tested by `mapWindowType`. -/
def windowTypeKeywords : List String :=
  ["double-hung", "double hung", "casement", "awning", "slider", "sliding",
   "picture", "fixed", "bay", "bow", "garden"]

/-- Every substring keyword tested by `mapMaterial`. -/
def materialKeywords : List String :=
  ["vinyl", "fiberglass", "wood", "aluminum", "composite"]

/-- Every substring keyword tested by `mapGlassType`. -/
def glassTypeKeywords : List String :=
  ["triple", "3-pane", "3 pane", "single", "1-pane", "1 pane"]

/-- C4: for every string input, `mapWindowType`, `mapMaterial` and
`mapGlassType` return one of their enumerated canonical values and never
fail, and when no keyword of the classifier occurs in the lowercased input
the result is the documented default (double-hung, vinyl and double-pane
respectively). -/
theorem mapping_totality :
    (∀ s : String, mapWindowType s ∈
      ["double-hung", "casement", "awning", "slider", "picture", "bay", "bow", "garden"]) ∧
    (∀ s : String, mapMaterial s ∈ ["vinyl", "fiberglass", "wood", "aluminum", "composite"]) ∧
    (∀ s : String, mapGlassType s ∈ ["triple-pane", "single-pane", "double-pane"]) ∧
    (∀ s : String, (∀ kw ∈ windowTypeKeywords, jsIncludes (jsToLower s) kw.toList = false) →
      mapWindowType s = "double-hung") ∧
    (∀ s : String, (∀ kw ∈ materialKeywords, jsIncludes (jsToLower s) kw.toList = false) →
      mapMaterial s = "vinyl") ∧
    (∀ s : String, (∀ kw ∈ glassTypeKeywords, jsIncludes (jsToLower s) kw.toList = false) →
      mapGlassType s = "double-pane") := by
  refine ⟨?_, ?_, ?_, ?_, ?_, ?_⟩
  · intro s; simp only [mapWindowType]; split_ifs <;> simp
  · intro s; simp only [mapMaterial]; split_ifs <;> simp
  · intro s; simp only [mapGlassType]; split_ifs <;> simp
  · intro s h
    have h1 := h "double-hung" (by simp [windowTypeKeywords])
    have h2 := h "double hung" (by simp [windowTypeKeywords])
    have h3 := h "casement" (by simp [windowTypeKeywords])
    have h4 := h "awning" (by simp [windowTypeKeywords])
    have h5 := h "slider" (by simp [windowTypeKeywords])
    have h6 := h "sliding" (by simp [windowTypeKeywords])
    have h7 := h "picture" (by simp [windowTypeKeywords])
    have h8 := h "fixed" (by simp [windowTypeKeywords])
    have h9 := h "bay" (by simp [windowTypeKeywords])
    have h10 := h "bow" (by simp [windowTypeKeywords])
    have h11 := h "garden" (by simp [windowTypeKeywords])
    simp only [mapWindowType]
    simp only [h1, h2, h3, h4, h5, h6, h7, h8, h9, h10, h11]
    simp
  · intro s h
    have h1 := h "vinyl" (by simp [materialKeywords])
    have h2 := h "fiberglass" (by simp [materialKeywords])
    have h3 := h "wood" (by simp [materialKeywords])
    have h4 := h "aluminum" (by simp [materialKeywords])
    have h5 := h "composite" (by simp [materialKeywords])
    simp only [mapMaterial]
    simp only [h1, h2, h3, h4, h5]
    simp
  · intro s h
    have h1 := h "triple" (by simp [glassTypeKeywords])
    have h2 := h "3-pane" (by simp [glassTypeKeywords])
    have h3 := h "3 pane" (by simp [glassTypeKeywords])
    have h4 := h "single" (by simp [glassTypeKeywords])
    have h5 := h "1-pane" (by simp [glassTypeKeywords])
    have h6 := h "1 pane" (by simp [glassTypeKeywords])
    simp only [mapGlassType]
    simp only [h1, h2, h3, h4, h5, h6]
    simp

set_option maxRecDepth 10000 in
/-- C4 witness: at a concrete unrecognized input, each mapper returns its
enumerated default. -/
theorem mapping_totality_witness :
    (∀ kw ∈ windowTypeKeywords, jsIncludes (jsToLower "gibberish") kw.toList = false) ∧
    (∀ kw ∈ materialKeywords, jsIncludes (jsToLower "gibberish") kw.toList = false) ∧
    (∀ kw ∈ glassTypeKeywords, jsIncludes (jsToLower "gibberish") kw.toList = false) ∧
    mapWindowType "gibberish" = "double-hung" ∧
    mapMaterial "gibberish" = "vinyl" ∧
    mapGlassType "gibberish" = "double-pane" :=
  ⟨by decide, by decide, by decide,
   mapping_totality.2.2.2.1 "gibberish" (by decide),
   mapping_totality.2.2.2.2.1 "gibberish" (by decide),
   mapping_totality.2.2.2.2.2 "gibberish" (by decide)⟩

/-- The feature labels of the option extractor, in check order. -/
def optionLabels : List String :=
  ["Low-E Glass", "Argon Gas", "ENERGY STAR", "Tempered Glass", "Grids", "Screens", "Tilt Feature"]

/-- C5: for every description, the option list is a sublist of the fixed
check-order label list (hence each label occurs at most once and labels occur
in the fixed order regardless of input order), and the stored string form is
exactly the list joined with a comma separator. -/
theorem extractOptions_ordered (description : String) :
    (extractOptionsList description).Sublist optionLabels ∧
    (extractOptionsList description).Nodup ∧
    extractOptions description = String.intercalate ", " (extractOptionsList description) := by
  have hsub : (extractOptionsList description).Sublist optionLabels := by
    have h0 : ([] : List String).Sublist [] := List.Sublist.refl _
    have h1 := sublist_if_step (reTest lowERe description = true) "Low-E Glass" h0
    have h2 := sublist_if_step (reTest argonRe description = true) "Argon Gas" h1
    have h3 := sublist_if_step (reTest energyStarRe description = true) "ENERGY STAR" h2
    have h4 := sublist_if_step (reTest temperedRe description = true) "Tempered Glass" h3
    have h5 := sublist_if_step (reTest gridsRe description = true) "Grids" h4
    have h6 := sublist_if_step (reTest screensRe description = true) "Screens" h5
    have h7 := sublist_if_step (reTest tiltRe description = true) "Tilt Feature" h6
    simpa [extractOptionsList, optionLabels] using h7
  exact ⟨hsub, hsub.nodup (by decide), rfl⟩

/-! ### Claim about the pricing fallback -/

/-- C3: when the external pricing call raises for the measurements and mapped
options of the quote item, `calculateWarnkePrice` returns the fallback
without raising: base price times quantity as total, base price as unit
price, zero options surcharge, and the fixed default options. -/
theorem calculateWarnkePrice_fallback (env : Env) (quoteItem : QuoteItem)
    (matchedProduct : MatchedProduct) (msg : String)
    (h : env.calculatePrice
        ⟨quoteItem.widthInches, quoteItem.heightInches, quoteItem.quantity⟩
        ⟨mapWindowType matchedProduct.productName, mapMaterial matchedProduct.materialType,
          mapGlassType quoteItem.description⟩ = .error msg) :
    calculateWarnkePrice env quoteItem matchedProduct =
      { totalPrice := matchedProduct.basePrice * quoteItem.quantity,
        pricePerWindow := matchedProduct.basePrice,
        basePrice := matchedProduct.basePrice,
        optionsPrice := 0,
        options := ⟨"double-hung", "vinyl", "double-pane"⟩ } := by
  simp only [calculateWarnkePrice]
  rw [h]
  simp [mul_comm]

/-- An environment whose pricing engine always raises. -/
def pricingDownEnv : Env :=
  { matchProduct := fun _ _ => .ok ⟨"p1", "Double-Hung", "product", "Vinyl", 300, 0.9⟩
    calculatePrice := fun _ _ => .error "pricing engine unavailable"
    createComparisonDoc := fun _ => .ok ()
    createComparisonItemDoc := fun _ => .ok ()
    updateComparisonDoc := fun _ => .ok ()
    now := 0
    genId := fun _ => "id" }

/-- A quote item with quantity two. -/
def fallbackQuoteItem : QuoteItem :=
  ⟨"i1", "q1", 36, 60, "window", 2, 300, 600, 0.8, 0, 0⟩

/-- A matched product with base price three hundred. -/
def fallbackMatchedProduct : MatchedProduct :=
  ⟨"p1", "Double-Hung", "product", "Vinyl", 300, 0.9⟩

set_option maxRecDepth 10000 in
/-- C3 witness: with quantity two and base price three hundred, the failing
pricing call yields equivalent total six hundred, unit price three hundred,
zero surcharge and the forced default options. -/
theorem calculateWarnkePrice_fallback_witness :
    pricingDownEnv.calculatePrice ⟨36, 60, 2⟩
      ⟨mapWindowType "Double-Hung", mapMaterial "Vinyl", mapGlassType "window"⟩ =
        .error "pricing engine unavailable" ∧
    calculateWarnkePrice pricingDownEnv fallbackQuoteItem fallbackMatchedProduct =
      { totalPrice := 600, pricePerWindow := 300, basePrice := 300, optionsPrice := 0,
        options := ⟨"double-hung", "vinyl", "double-pane"⟩ } :=
  ⟨rfl, by
    have h := calculateWarnkePrice_fallback pricingDownEnv fallbackQuoteItem
      fallbackMatchedProduct "pricing engine unavailable" rfl
    rw [h]
    with_unfolding_all decide⟩

/-! ### Claims about the text parser -/

/-- The dimension round-trip input of the spec. -/
def dimensionRoundTripInput : String :=
  "Quote #AB-1234\nDate: 03/15/2024\n36 x 60 Low-E Argon $450.00\nTotal: $450.00"

set_option maxRecDepth 100000 in
/-- C6: on the dimension round-trip input, the parser extracts quote number
AB-1234, the date March 15 2024, total 450.00, and exactly one item with
width 36, height 60, quantity 1, unit price 450.00, total price 450.00 and
confidence 0.8, and the option extractor finds both Low-E Glass and Argon
Gas in the residual item description. -/
theorem parseQuoteText_dimension_round_trip :
    parseQuoteText dimensionRoundTripInput "andersen" =
      { quoteNumber := "AB-1234", quoteDate := some ⟨3, 15, 2024⟩, totalAmount := 450,
        items := [{ widthInches := 36, heightInches := 60, description := "Low-E Argon",
                    quantity := 1, unitPrice := 450, totalPrice := 450,
                    confidenceScore := 0.8 }] } ∧
    "Low-E Glass" ∈ extractOptionsList "Low-E Argon" ∧
    "Argon Gas" ∈ extractOptionsList "Low-E Argon" := by
  with_unfolding_all decide

/-- C7: on text in which none of the quote-number regexes, none of the date
regexes, none of the total regexes and no dimension pattern matches, the
parser returns the exact default record, and it cannot raise. -/
theorem parseQuoteText_default_safety (text competitorName : String)
    (h1 : scanQuoteNumber text.toList = none)
    (h2 : scanDate text.toList = none)
    (h3 : scanTotal text.toList = none)
    (h4 : jsMatchAll dimensionRe text.toList = []) :
    parseQuoteText text competitorName =
      { quoteNumber := "", quoteDate := none, totalAmount := 0, items := [] } := by
  simp only [parseQuoteText, h1, h2, h3, h4]
  rfl

set_option maxRecDepth 100000 in
/-- C7 witness: a concrete pattern-free text parses to the default record. -/
theorem parseQuoteText_default_safety_witness :
    scanQuoteNumber "hello world".toList = none ∧
    scanDate "hello world".toList = none ∧
    scanTotal "hello world".toList = none ∧
    jsMatchAll dimensionRe "hello world".toList = [] ∧
    parseQuoteText "hello world" "marvin" =
      { quoteNumber := "", quoteDate := none, totalAmount := 0, items := [] } :=
  ⟨by decide, by decide, by decide, by decide,
   parseQuoteText_default_safety "hello world" "marvin"
     (by decide) (by decide) (by decide) (by decide)⟩

/-- The dimension line with an explicit zero quantity. -/
def zeroQuantityInput : String := "36 x 60 qty 0 $100.00"

set_option maxRecDepth 100000 in
/-- C10: the unit-price division of the item extraction is not guarded
against a zero quantity: on a dimension line carrying the token qty 0, the
parser emits an item whose quantity is 0 and whose unit price is the
division of the extracted price by that zero quantity (division by zero,
total in this rational model), violating the documented quantity lower
bound of one. -/
theorem parseQuoteText_zero_quantity :
    parseQuoteText zeroQuantityInput "provia" =
      { quoteNumber := "", quoteDate := none, totalAmount := 0,
        items := [{ widthInches := 36, heightInches := 60,
                    description := "36\" × 60\" Window", quantity := 0,
                    unitPrice := (100 : ℚ) / 0, totalPrice := 100,
                    confidenceScore := 0.8 }] } ∧
    (∀ item ∈ (parseQuoteText zeroQuantityInput "provia").items, ¬(1 ≤ item.quantity)) := by
  with_unfolding_all decide

/-! ### Claims about the comparison assembler -/

/-- Decidable equality of results, for concrete witness runs. -/
instance {ε α : Type} [DecidableEq ε] [DecidableEq α] : DecidableEq (Except ε α)
  | .error e1, .error e2 =>
    if h : e1 = e2 then isTrue (by rw [h])
    else isFalse (fun hc => h (Except.error.inj hc))
  | .error _, .ok _ => isFalse (fun hc => Except.noConfusion hc)
  | .ok _, .error _ => isFalse (fun hc => Except.noConfusion hc)
  | .ok a1, .ok a2 =>
    if h : a1 = a2 then isTrue (by rw [h])
    else isFalse (fun hc => h (Except.ok.inj hc))

/-- C1: whenever `generateComparison` succeeds, the final comparison totals
satisfy the aggregation invariant: the competitor total is the source quote
total, the equivalent total is the sum of the equivalent prices of the
successfully created items, the savings amount is their difference, and the
savings percentage is the ratio times one hundred when the competitor total
is positive and zero otherwise. -/
theorem generateComparison_totals (env : Env) (quote : Quote)
    (quoteItems : List QuoteItem) (products : List Product) (projectId : String)
    (comparison : Comparison) (items : List ComparisonItem)
    (h : generateComparison env quote quoteItems products projectId = .ok (comparison, items)) :
    comparison.totalCompetitorPrice = quote.totalAmount ∧
    comparison.totalWarnkePrice = (items.map fun item => item.warnkePrice).sum ∧
    comparison.savingsAmount = comparison.totalCompetitorPrice - comparison.totalWarnkePrice ∧
    comparison.savingsPercentage =
      (if comparison.totalCompetitorPrice > 0 then
        comparison.savingsAmount / comparison.totalCompetitorPrice * 100 else 0) := by
  have hcore : generateComparisonCore env quote quoteItems products projectId =
      .ok (comparison, items) := by
    unfold generateComparison at h
    cases hc : generateComparisonCore env quote quoteItems products projectId with
    | error e => simp only [hc] at h; exact Except.noConfusion h
    | ok r => simp only [hc] at h; exact h
  unfold generateComparisonCore at hcore
  dsimp only at hcore
  split at hcore
  · exact Except.noConfusion hcore
  · split at hcore
    · exact Except.noConfusion hcore
    · injection hcore with h2
      have hfst := congrArg Prod.fst h2
      have hsnd := congrArg Prod.snd h2
      dsimp only at hfst hsnd
      subst hfst
      subst hsnd
      refine ⟨rfl, ?_, rfl, rfl⟩
      simpa using foldl_add_map_sum (fun item : ComparisonItem => item.warnkePrice) _ 0

/-- An environment in which every external call succeeds. -/
def okEnv : Env :=
  { matchProduct := fun _ _ => .ok ⟨"p1", "Double-Hung", "product", "Vinyl", 300, 0.9⟩
    calculatePrice := fun _ _ => .ok ⟨400, 400, 350, 50⟩
    createComparisonDoc := fun _ => .ok ()
    createComparisonItemDoc := fun _ => .ok ()
    updateComparisonDoc := fun _ => .ok ()
    now := 0
    genId := fun _ => "id" }

/-- A concrete quote for the aggregation witness. -/
def wQuote : Quote := ⟨"q1", "pr1", "andersen", 450, 0⟩

/-- A concrete quote item for the aggregation witness. -/
def wQuoteItem : QuoteItem := ⟨"i1", "q1", 36, 60, "window", 1, 450, 450, 0.8, 0, 0⟩

/-- The comparison produced by the aggregation witness run. -/
def wComparison : Comparison :=
  { comparisonId := "id", projectId := "proj", quoteId := "q1", competitorName := "andersen",
    totalCompetitorPrice := 450, totalWarnkePrice := 400, savingsAmount := 50,
    savingsPercentage := 100 / 9, status := "generated", createdAt := 0, updatedAt := 0 }

/-- The single comparison item produced by the aggregation witness run. -/
def wComparisonItem : ComparisonItem :=
  { comparisonItemId := "id", comparisonId := "id", quoteItemId := "i1",
    competitorProductDescription := "window", competitorOptions := "",
    competitorPrice := 450, warnkeProductId := "p1", warnkeProductName := "Double-Hung",
    warnkeProductDescription := "product", warnkeOptions := "Vinyl Frame, Double Pane Glass",
    warnkePrice := 400, width := 36, height := 60, quantity := 1, savingsAmount := 50,
    savingsPercentage := 100 / 9, matchConfidence := 0.9, createdAt := 0, updatedAt := 0 }

set_option maxRecDepth 100000 in
/-- C1 witness: a concrete successful run satisfies the aggregation
invariant. -/
theorem generateComparison_totals_witness :
    generateComparison okEnv wQuote [wQuoteItem] [] "proj" =
      .ok (wComparison, [wComparisonItem]) ∧
    wComparison.totalCompetitorPrice = wQuote.totalAmount ∧
    wComparison.totalWarnkePrice = ([wComparisonItem].map fun item => item.warnkePrice).sum ∧
    wComparison.savingsAmount = wComparison.totalCompetitorPrice - wComparison.totalWarnkePrice ∧
    wComparison.savingsPercentage =
      (if wComparison.totalCompetitorPrice > 0 then
        wComparison.savingsAmount / wComparison.totalCompetitorPrice * 100 else 0) :=
  have h : generateComparison okEnv wQuote [wQuoteItem] [] "proj" =
      .ok (wComparison, [wComparisonItem]) := by with_unfolding_all decide
  ⟨h, generateComparison_totals okEnv wQuote [wQuoteItem] [] "proj"
    wComparison [wComparisonItem] h⟩

/-- Helper: a successfully processed item carries the identifier of its
source quote item. -/
theorem processQuoteItem_quoteItemId (env : Env) (comparisonId : String)
    (products : List Product) (n : Nat) (quoteItem : QuoteItem) (ci : ComparisonItem)
    (h : processQuoteItem env comparisonId products n quoteItem = .ok ci) :
    ci.quoteItemId = quoteItem.itemId := by
  unfold processQuoteItem at h
  dsimp only at h
  split at h
  · exact Except.noConfusion h
  · split at h
    · exact Except.noConfusion h
    · injection h with h2
      rw [← h2]

/-- C8: the comparison items produced by the generation loop preserve the
original quote-item order: their source quote-item identifiers form a
sublist of the quote-item identifier sequence, for every pattern of per-item
success and failure. -/
theorem generateComparisonItems_order (env : Env) (comparisonId : String)
    (quoteItems : List QuoteItem) (products : List Product) :
    ((generateComparisonItems env comparisonId quoteItems products).map
        fun item => item.quoteItemId).Sublist
      (quoteItems.map fun quoteItem => quoteItem.itemId) := by
  suffices hgen : ∀ (qs : List QuoteItem) (n : Nat),
      ((generateComparisonItemsAux env comparisonId products qs n).map
          fun item : ComparisonItem => item.quoteItemId).Sublist
        (qs.map fun quoteItem : QuoteItem => quoteItem.itemId) from hgen quoteItems 1
  intro qs
  induction qs with
  | nil => intro n; simp [generateComparisonItemsAux]
  | cons q rest ih =>
    intro n
    unfold generateComparisonItemsAux
    cases hp : processQuoteItem env comparisonId products n q with
    | ok ci =>
      simp only [hp, List.map_cons]
      rw [processQuoteItem_quoteItemId env comparisonId products n q ci hp]
      exact List.Sublist.cons₂ _ (ih (n + 1))
    | error e =>
      simp only [hp, List.map_cons]
      exact List.Sublist.cons _ (ih (n + 1))

/-- An environment whose pricing engine raises exactly for the second item
of the partial-failure scenario (the item of width twenty). -/
def pricingDownOnItem2Env : Env :=
  { matchProduct := fun _ _ => .ok ⟨"p1", "Casement", "product", "Wood", 250, 0.8⟩
    calculatePrice := fun m _ => if m.width = 20 then .error "pricing raised" else .ok ⟨500, 500, 450, 50⟩
    createComparisonDoc := fun _ => .ok ()
    createComparisonItemDoc := fun _ => .ok ()
    updateComparisonDoc := fun _ => .ok ()
    now := 0
    genId := fun _ => "id" }

/-- First scenario quote item. -/
def sQItem1 : QuoteItem := ⟨"i1", "q1", 10, 20, "one", 1, 100, 100, 0.8, 0, 0⟩

/-- Second scenario quote item (its pricing call raises). -/
def sQItem2 : QuoteItem := ⟨"i2", "q1", 20, 20, "two", 1, 200, 200, 0.8, 0, 0⟩

/-- Third scenario quote item. -/
def sQItem3 : QuoteItem := ⟨"i3", "q1", 30, 20, "three", 1, 300, 300, 0.8, 0, 0⟩

/-- The scenario quote. -/
def sQuote : Quote := ⟨"q1", "pr", "pella", 600, 0⟩

set_option maxRecDepth 100000 in
/-- C2 counterexample: with three quote items whose second pricing call
raises, `generateComparison` returns three comparison items, not two — a
pricing failure triggers the fallback price rather than skipping the item. -/
theorem generateComparison_pricing_failure_counterexample :
    pricingDownOnItem2Env.calculatePrice ⟨20, 20, 1⟩
      ⟨mapWindowType "Casement", mapMaterial "Wood", mapGlassType "two"⟩ =
        .error "pricing raised" ∧
    (generateComparison pricingDownOnItem2Env sQuote [sQItem1, sQItem2, sQItem3] [] "pr").toOption.map
      (fun r => r.2.length) = some 3 := by
  with_unfolding_all decide

/-- C2 amended: a per-item failure outside the pricing fallback (product
matching or persistence raising) is caught and skipped: with three quote
items whose second fails in that way and whose first and third succeed, a
successful `generateComparison` returns exactly the two items of the first
and third quote items, in order, and the equivalent total reflects only
those two items; pricing-engine failures alone do not remove an item (they
fall back, see the counterexample).  No exception escapes the per-item
loop. -/
theorem generateComparison_skips_failed_items (env : Env) (quote : Quote)
    (q1 q2 q3 : QuoteItem) (products : List Product) (projectId : String)
    (comparison : Comparison) (items : List ComparisonItem)
    (c1 c3 : ComparisonItem) (e : String)
    (h1 : processQuoteItem env (env.genId 0) products 1 q1 = .ok c1)
    (h2 : processQuoteItem env (env.genId 0) products 2 q2 = .error e)
    (h3 : processQuoteItem env (env.genId 0) products 3 q3 = .ok c3)
    (h : generateComparison env quote [q1, q2, q3] products projectId = .ok (comparison, items)) :
    items = [c1, c3] ∧
    items.map (fun item => item.quoteItemId) = [q1.itemId, q3.itemId] ∧
    comparison.totalWarnkePrice = c1.warnkePrice + c3.warnkePrice := by
  have hitems : generateComparisonItemsAux env (env.genId 0) products [q1, q2, q3] 1 = [c1, c3] := by
    simp [generateComparisonItemsAux, h1, h2, h3]
  have hcore : generateComparisonCore env quote [q1, q2, q3] products projectId =
      .ok (comparison, items) := by
    unfold generateComparison at h
    cases hc : generateComparisonCore env quote [q1, q2, q3] products projectId with
    | error e2 => simp only [hc] at h; exact Except.noConfusion h
    | ok r => simp only [hc] at h; exact h
  unfold generateComparisonCore at hcore
  dsimp only at hcore
  rw [hitems] at hcore
  split at hcore
  · exact Except.noConfusion hcore
  · split at hcore
    · exact Except.noConfusion hcore
    · injection hcore with h4
      have hfst := congrArg Prod.fst h4
      have hsnd := congrArg Prod.snd h4
      dsimp only at hfst hsnd
      subst hfst
      subst hsnd
      refine ⟨rfl, ?_, by simp⟩
      simp only [List.map_cons, List.map_nil]
      rw [processQuoteItem_quoteItemId env (env.genId 0) products 1 q1 c1 h1,
        processQuoteItem_quoteItemId env (env.genId 0) products 3 q3 c3 h3]

/-- An environment whose product matcher raises exactly for the second
scenario item. -/
def matchDownOnItem2Env : Env :=
  { matchProduct := fun q _ =>
      if q.itemId = "i2" then .error "match raised"
      else .ok ⟨"p1", "Casement", "product", "Wood", 250, 0.8⟩
    calculatePrice := fun _ _ => .ok ⟨0, 0, 0, 0⟩
    createComparisonDoc := fun _ => .ok ()
    createComparisonItemDoc := fun _ => .ok ()
    updateComparisonDoc := fun _ => .ok ()
    now := 0
    genId := fun _ => "id" }

/-- First skip-scenario quote item. -/
def skQItem1 : QuoteItem := ⟨"i1", "q1", 1, 1, "one", 1, 0, 0, 0.8, 0, 0⟩

/-- Second skip-scenario quote item (its product match raises). -/
def skQItem2 : QuoteItem := ⟨"i2", "q1", 1, 1, "two", 1, 0, 0, 0.8, 0, 0⟩

/-- Third skip-scenario quote item. -/
def skQItem3 : QuoteItem := ⟨"i3", "q1", 1, 1, "three", 1, 0, 0, 0.8, 0, 0⟩

/-- The skip-scenario quote. -/
def skQuote : Quote := ⟨"q1", "pr", "pella", 0, 0⟩

/-- The first comparison item of the skip-scenario run. -/
def skC1 : ComparisonItem :=
  { comparisonItemId := "id", comparisonId := "id", quoteItemId := "i1",
    competitorProductDescription := "one", competitorOptions := "", competitorPrice := 0,
    warnkeProductId := "p1", warnkeProductName := "Casement",
    warnkeProductDescription := "product", warnkeOptions := "Wood Frame, Double Pane Glass",
    warnkePrice := 0, width := 1, height := 1, quantity := 1, savingsAmount := 0,
    savingsPercentage := 0, matchConfidence := 0.8, createdAt := 0, updatedAt := 0 }

/-- The second comparison item of the skip-scenario run (from the third
quote item). -/
def skC3 : ComparisonItem :=
  { comparisonItemId := "id", comparisonId := "id", quoteItemId := "i3",
    competitorProductDescription := "three", competitorOptions := "", competitorPrice := 0,
    warnkeProductId := "p1", warnkeProductName := "Casement",
    warnkeProductDescription := "product", warnkeOptions := "Wood Frame, Double Pane Glass",
    warnkePrice := 0, width := 1, height := 1, quantity := 1, savingsAmount := 0,
    savingsPercentage := 0, matchConfidence := 0.8, createdAt := 0, updatedAt := 0 }

/-- The comparison of the skip-scenario run. -/
def skComparison : Comparison :=
  { comparisonId := "id", projectId := "proj", quoteId := "q1", competitorName := "pella",
    totalCompetitorPrice := 0, totalWarnkePrice := 0, savingsAmount := 0,
    savingsPercentage := 0, status := "generated", createdAt := 0, updatedAt := 0 }

set_option maxRecDepth 100000 in
/-- C2 amended witness: a concrete run in which item 2 fails at the product
match returns exactly the items of quote items 1 and 3 and their total. -/
theorem generateComparison_skips_failed_items_witness :
    processQuoteItem matchDownOnItem2Env "id" [] 1 skQItem1 = .ok skC1 ∧
    processQuoteItem matchDownOnItem2Env "id" [] 2 skQItem2 = .error "match raised" ∧
    processQuoteItem matchDownOnItem2Env "id" [] 3 skQItem3 = .ok skC3 ∧
    generateComparison matchDownOnItem2Env skQuote [skQItem1, skQItem2, skQItem3] [] "proj" =
      .ok (skComparison, [skC1, skC3]) ∧
    [skC1, skC3].map (fun item => item.quoteItemId) = ["i1", "i3"] ∧
    skComparison.totalWarnkePrice = skC1.warnkePrice + skC3.warnkePrice :=
  have h1 : processQuoteItem matchDownOnItem2Env "id" [] 1 skQItem1 = .ok skC1 := by
    with_unfolding_all decide
  have h2 : processQuoteItem matchDownOnItem2Env "id" [] 2 skQItem2 = .error "match raised" := by
    with_unfolding_all decide
  have h3 : processQuoteItem matchDownOnItem2Env "id" [] 3 skQItem3 = .ok skC3 := by
    with_unfolding_all decide
  have h : generateComparison matchDownOnItem2Env skQuote [skQItem1, skQItem2, skQItem3] [] "proj" =
      .ok (skComparison, [skC1, skC3]) := by with_unfolding_all decide
  have hmain := generateComparison_skips_failed_items matchDownOnItem2Env skQuote
    skQItem1 skQItem2 skQItem3 [] "proj" skComparison [skC1, skC3] skC1 skC3
    "match raised" h1 h2 h3 h
  ⟨h1, h2, h3, h, hmain.2.1, hmain.2.2⟩

/-! ### Claim about the quote-item update path -/

/-- After `updateQuoteTotalAmount`, the stored quote of the given identifier,
when present, carries exactly the sum of the total prices of the stored
items owned by that quote. -/
theorem updateQuoteTotalAmount_spec (st : DbState) (quoteId : String) (now : Nat) (q2 : Quote)
    (h : (updateQuoteTotalAmount st quoteId now).quotes.find?
        (fun q => q.quoteId == quoteId) = some q2) :
    q2.totalAmount = (((updateQuoteTotalAmount st quoteId now).quoteItems.filter
      (fun it => it.quoteId == quoteId)).map fun it => it.totalPrice).sum := by
  unfold updateQuoteTotalAmount at h ⊢
  cases hfq : st.quotes.find? (fun q => q.quoteId == quoteId) with
  | none =>
    simp only [hfq] at h
    exact Option.noConfusion h
  | some quote =>
    have hpq := List.find?_some hfq
    simp only [hfq] at h ⊢
    generalize hT : (st.quoteItems.filter (fun it => it.quoteId == quoteId)).foldl
      (fun total item => total + item.totalPrice) 0 = T at h
    rw [find_replace_quotes st.quotes quoteId
      { quote with totalAmount := T, updatedAt := now } hpq] at h
    rw [hfq] at h
    rw [Option.isSome_some, if_pos rfl] at h
    injection h with h2
    rw [← h2]
    dsimp only
    rw [← hT]
    simpa using foldl_add_map_sum (fun it : QuoteItem => it.totalPrice) _ 0

/-- C9: a successful `updateQuoteItem` re-establishes the price relationship
on the updated item — an update of the width, height, quantity or unit-price
field recomputes the total price as unit price times quantity, and an update
of the total price recomputes the unit price as the new total divided by the
quantity (re-establishing the product relationship whenever the quantity is
nonzero, the documented shape of a quote item) — and afterwards the owning
quote record carries the sum of the total prices of all of that quote's
stored items. -/
theorem updateQuoteItem_invariants (st : DbState) (itemId : String) (upd : UpdateField)
    (now : Nat) (st2 : DbState) (updatedItem : QuoteItem)
    (h : updateQuoteItem st itemId upd now = .ok (st2, updatedItem)) :
    (isRecomputeField upd = true →
        updatedItem.totalPrice = updatedItem.unitPrice * updatedItem.quantity) ∧
    (∀ v : ℚ, upd = .totalPrice v →
        updatedItem.totalPrice = v ∧ updatedItem.unitPrice = v / updatedItem.quantity ∧
        (updatedItem.quantity ≠ 0 →
          updatedItem.totalPrice = updatedItem.unitPrice * updatedItem.quantity)) ∧
    (∀ q2 : Quote, st2.quotes.find? (fun q => q.quoteId == updatedItem.quoteId) = some q2 →
        q2.totalAmount = ((st2.quoteItems.filter
          (fun it => it.quoteId == updatedItem.quoteId)).map fun it => it.totalPrice).sum) := by
  unfold updateQuoteItem at h
  cases hf : findQuoteItem st itemId with
  | none => simp only [hf] at h; exact Except.noConfusion h
  | some item =>
    simp only [hf] at h
    injection h with h2
    have hfst := congrArg Prod.fst h2
    have hsnd := congrArg Prod.snd h2
    dsimp only at hfst hsnd
    subst hfst
    subst hsnd
    cases upd with
    | widthInches v =>
      exact ⟨fun _ => rfl, fun v2 hv => UpdateField.noConfusion hv,
        fun q2 hq2 => updateQuoteTotalAmount_spec _ item.quoteId now q2 hq2⟩
    | heightInches v =>
      exact ⟨fun _ => rfl, fun v2 hv => UpdateField.noConfusion hv,
        fun q2 hq2 => updateQuoteTotalAmount_spec _ item.quoteId now q2 hq2⟩
    | quantity v =>
      exact ⟨fun _ => rfl, fun v2 hv => UpdateField.noConfusion hv,
        fun q2 hq2 => updateQuoteTotalAmount_spec _ item.quoteId now q2 hq2⟩
    | unitPrice v =>
      exact ⟨fun _ => rfl, fun v2 hv => UpdateField.noConfusion hv,
        fun q2 hq2 => updateQuoteTotalAmount_spec _ item.quoteId now q2 hq2⟩
    | totalPrice v =>
      refine ⟨?_, ?_, fun q2 hq2 => updateQuoteTotalAmount_spec _ item.quoteId now q2 hq2⟩
      · intro hrec; exact absurd hrec (by simp [isRecomputeField])
      · intro v2 hv
        injection hv with hv2
        subst hv2
        exact ⟨rfl, rfl, fun hq => (div_mul_cancel₀ v hq).symm⟩
    | description v =>
      refine ⟨?_, fun v2 hv => UpdateField.noConfusion hv,
        fun q2 hq2 => updateQuoteTotalAmount_spec _ item.quoteId now q2 hq2⟩
      intro hrec; exact absurd hrec (by simp [isRecomputeField])

/-- The concrete store of the update witness: one quote and one item. -/
def wDb : DbState :=
  ⟨[⟨"q1", "pr", "comp", 0, 0⟩], [⟨"i1", "q1", 1, 1, "d", 2, 10, 20, 0.8, 0, 0⟩]⟩

/-- The store after the witness update. -/
def wDb2 : DbState :=
  ⟨[⟨"q1", "pr", "comp", 50, 1⟩], [⟨"i1", "q1", 1, 1, "d", 2, 25, 50, 0.8, 0, 1⟩]⟩

/-- The updated item of the witness update. -/
def wUpdatedItem : QuoteItem := ⟨"i1", "q1", 1, 1, "d", 2, 25, 50, 0.8, 0, 1⟩

set_option maxRecDepth 100000 in
/-- C9 witness: updating the unit price of a stored item recomputes its
total price and re-derives the owning quote total as the sum of its items. -/
theorem updateQuoteItem_invariants_witness :
    updateQuoteItem wDb "i1" (.unitPrice 25) 1 = .ok (wDb2, wUpdatedItem) ∧
    isRecomputeField (.unitPrice 25) = true ∧
    wUpdatedItem.totalPrice = wUpdatedItem.unitPrice * wUpdatedItem.quantity ∧
    wDb2.quotes.find? (fun q => q.quoteId == wUpdatedItem.quoteId) =
      some ⟨"q1", "pr", "comp", 50, 1⟩ ∧
    (⟨"q1", "pr", "comp", 50, 1⟩ : Quote).totalAmount =
      ((wDb2.quoteItems.filter (fun it => it.quoteId == wUpdatedItem.quoteId)).map
        fun it => it.totalPrice).sum :=
  have h : updateQuoteItem wDb "i1" (.unitPrice 25) 1 = .ok (wDb2, wUpdatedItem) := by
    with_unfolding_all decide
  have hmain := updateQuoteItem_invariants wDb "i1" (.unitPrice 25) 1 wDb2 wUpdatedItem h
  ⟨h, rfl, hmain.1 rfl, by with_unfolding_all decide,
    hmain.2.2 ⟨"q1", "pr", "comp", 50, 1⟩ (by with_unfolding_all decide)⟩

end WindowAdvisor
